import Mathlib

/-!
Verification development for the SOSenki shared-property bookkeeping core:
the billing allocation and balance engine (`bills_service.py`,
`balance_service.py`, `period_service.py`) and the admission workflow
(`request_service.py`, `admin_service.py`).

Python `Decimal` values are embedded as exact rationals (`ℚ`); the two-decimal
half-up quantization step is modelled explicitly by `roundHalfUp2`.  Database
reads/writes are embedded as explicit state passing over lists of records;
a SQLAlchemy `scalar_one_or_none` lookup is embedded as `List.find?` (faithful
whenever the filtered set has at most one element, which the relevant theorems
assume where it matters).  Raised `ValueError`s are embedded as `Except.error`.
-/

namespace SOSenki

/-- Mirrors `Decimal.quantize(Decimal("0.01"), rounding=ROUND_HALF_UP)`:
round to two decimal places, ties away from zero. -/
def roundHalfUp2 (x : ℚ) : ℚ :=
  if x < 0 then -(((Rat.floor (100 * (-x) + 1/2) : ℤ) : ℚ) / 100)
  else ((Rat.floor (100 * x + 1/2) : ℤ) : ℚ) / 100

theorem rat_floor_eq_floor (q : ℚ) : Rat.floor q = ⌊q⌋ := rfl

/-- `BillsService.calculate_total_electricity` (bills_service.py, lines
356-400): validation guards in source order, then
`(end - start) * multiplier * rate * (1 + losses)` quantized half-up to two
decimals. -/
def calculate_total_electricity (electricity_start electricity_end
    electricity_multiplier electricity_rate electricity_losses : ℚ) :
    Except String ℚ :=
  if electricity_end ≤ electricity_start then
    .error "Electricity end reading must be greater than start reading"
  else if electricity_start < 0 ∨ electricity_end < 0 then
    .error "Electricity readings cannot be negative"
  else if electricity_multiplier ≤ 0 ∨ electricity_rate ≤ 0 then
    .error "Multiplier and rate must be positive"
  else if electricity_losses < 0 then
    .error "Losses cannot be negative"
  else
    let consumption := electricity_end - electricity_start
    .ok (roundHalfUp2 (consumption * electricity_multiplier *
      electricity_rate * (1 + electricity_losses)))

/-- The quantization error of half-up two-decimal rounding is at most half a
cent. -/
theorem roundHalfUp2_error (x : ℚ) : |roundHalfUp2 x - x| ≤ 1 / 200 := by
  unfold roundHalfUp2
  rw [rat_floor_eq_floor, rat_floor_eq_floor]
  split_ifs with h
  · rw [abs_le]
    have h1 := Int.floor_le (100 * (-x) + 1/2)
    have h2 := Int.lt_floor_add_one (100 * (-x) + 1/2)
    constructor <;> [nlinarith; nlinarith]
  · rw [abs_le]
    have h1 := Int.floor_le (100 * x + 1/2)
    have h2 := Int.lt_floor_add_one (100 * x + 1/2)
    constructor <;> [nlinarith; nlinarith]

/-- C1: `calculate_total_electricity` fails exactly when end ≤ start, a
reading is negative, the multiplier or rate is non-positive, or the loss
ratio is negative; on every valid input it returns
`(end - start) * multiplier * rate * (1 + loss)` rounded half-up to two
decimals; in particular it maps (100, 200, 1.5, 10, 0.2) to 1800.00. -/
theorem calculate_total_electricity_spec (s e m r l : ℚ) :
    ((∃ msg, calculate_total_electricity s e m r l = .error msg) ↔
      (e ≤ s ∨ s < 0 ∨ e < 0 ∨ m ≤ 0 ∨ r ≤ 0 ∨ l < 0)) ∧
    (s < e → 0 ≤ s → 0 ≤ e → 0 < m → 0 < r → 0 ≤ l →
      calculate_total_electricity s e m r l =
        .ok (roundHalfUp2 ((e - s) * m * r * (1 + l)))) ∧
    calculate_total_electricity 100 200 (3/2) 10 (1/5) = .ok 1800 := by
  have harg : ((200:ℚ) - 100) * (3/2) * 10 * (1 + 1/5) = 1800 := by norm_num
  have hround : roundHalfUp2 1800 = 1800 := by
    norm_num [roundHalfUp2, rat_floor_eq_floor]
  refine ⟨?_, ?_, by unfold calculate_total_electricity; norm_num [harg, hround]⟩
  · unfold calculate_total_electricity
    split_ifs with h1 h2 h3 h4
    · exact ⟨fun _ => Or.inl h1, fun _ => ⟨_, rfl⟩⟩
    · refine ⟨fun _ => ?_, fun _ => ⟨_, rfl⟩⟩
      rcases h2 with h | h
      · exact Or.inr (Or.inl h)
      · exact Or.inr (Or.inr (Or.inl h))
    · refine ⟨fun _ => ?_, fun _ => ⟨_, rfl⟩⟩
      rcases h3 with h | h
      · exact Or.inr (Or.inr (Or.inr (Or.inl h)))
      · exact Or.inr (Or.inr (Or.inr (Or.inr (Or.inl h))))
    · exact ⟨fun _ => Or.inr (Or.inr (Or.inr (Or.inr (Or.inr h4)))),
        fun _ => ⟨_, rfl⟩⟩
    · push_neg at h1 h2 h3
      refine ⟨fun ⟨msg, hmsg⟩ => absurd hmsg (by simp), fun hd => ?_⟩
      rcases hd with h | h | h | h | h | h
      · exact absurd h (not_le.mpr h1)
      · exact absurd h (not_lt.mpr h2.1)
      · exact absurd h (not_lt.mpr h2.2)
      · exact absurd h (not_le.mpr h3.1)
      · exact absurd h (not_le.mpr h3.2)
      · exact absurd h h4
  · intro he hs0 he0 hm hr hl
    unfold calculate_total_electricity
    rw [if_neg (not_le.mpr he), if_neg (by push_neg; exact ⟨hs0, he0⟩),
      if_neg (by push_neg; exact ⟨hm, hr⟩), if_neg (not_lt.mpr hl)]

/-- Witness for C1 at the spec's concrete example. -/
theorem calculate_total_electricity_spec_witness :
    calculate_total_electricity 100 200 (3/2) 10 (1/5) =
      .ok (roundHalfUp2 ((200 - 100) * (3/2) * 10 * (1 + 1/5))) :=
  (calculate_total_electricity_spec 100 200 (3/2) 10 (1/5)).2.1
    (by norm_num) (by norm_num) (by norm_num) (by norm_num) (by norm_num)
    (by norm_num)

/-! ## Balance engine (`balance_service.py`) -/

/-- Modelled from the spec: `Account` record (§3) — id, type ∈ {owner,
organization, community, staff}, optional owner (user) reference.  The ORM
model file is absent from the snapshot; the fields used by the services
(`id`, `user_id`, `account_type`, `name`) are taken from their call sites. -/
structure Account where
  id : Int
  user_id : Option Int
  account_type : String
  name : String
deriving DecidableEq

/-- Modelled from the spec: `Transaction` record (§3) — from_account,
to_account, amount.  The ORM model file is absent from the snapshot. -/
structure Transaction where
  from_account_id : Option Int
  to_account_id : Option Int
  amount : ℚ
deriving DecidableEq

/-- `Bill` record (models/bill.py): period, nullable account/property
references, bill type, amount. -/
structure Bill where
  id : Int
  service_period_id : Int
  account_id : Option Int
  property_id : Option Int
  bill_type : String
  bill_amount : ℚ
deriving DecidableEq

/-- `BalanceResult` (balance_service.py, lines 26-30). -/
structure BalanceResult where
  balance : ℚ
  invert_for_display : Bool
deriving DecidableEq

/-- Database snapshot read by `BalanceCalculationService`. -/
structure BalanceDB where
  accounts : List Account
  transactions : List Transaction
  bills : List Bill

/-- `BalanceCalculationService.calculate_account_balance_with_display`
(balance_service.py, lines 107-160).  The three `select`/`filter` queries are
embedded as list filters; `sum(... if t.amount) or 0` is an exact sum over
`ℚ` (skipping zero amounts and the `or 0` on an empty sum do not change the
value). -/
def calculate_account_balance_with_display (db : BalanceDB)
    (account_id : Int) : BalanceResult :=
  match db.accounts.find? (fun a => a.id == account_id) with
  | none => ⟨0, false⟩
  | some account =>
    let incoming_total := ((db.transactions.filter
      (fun t => t.to_account_id == some account_id)).map Transaction.amount).sum
    let outgoing_total := ((db.transactions.filter
      (fun t => t.from_account_id == some account_id)).map Transaction.amount).sum
    let bills_total := ((db.bills.filter
      (fun b => b.account_id == some account_id)).map Bill.bill_amount).sum
    ⟨incoming_total - outgoing_total + bills_total,
      account.account_type == "owner"⟩

/-- `BalanceCalculationService.calculate_account_balance` (balance_service.py,
lines 89-105): delegates to the display variant and drops the flag. -/
def calculate_account_balance (db : BalanceDB) (account_id : Int) : ℚ :=
  (calculate_account_balance_with_display db account_id).balance

/-- Example database for the spec's balance worked example: one owner
account with no incoming transactions, 300 outgoing, 120 of bills. -/
def balanceExampleDB : BalanceDB :=
  { accounts := [⟨1, some 10, "owner", "Owner A"⟩]
    transactions := [⟨some 1, some 2, 300⟩]
    bills := [⟨5, 1, some 1, none, "main", 120⟩] }

/-- C2: for every account that exists, the balance is
Σ(incoming) − Σ(outgoing) + Σ(bills) (each sum 0 over no rows),
`invert_for_display` holds exactly when the account type is `owner`, the raw
balance returned by `calculate_account_balance` is the same value regardless
of the flag, and the worked example (incoming 0, outgoing 300, bills 120 on
an owner account) yields −180 with the flag set. -/
theorem calculate_account_balance_with_display_spec (db : BalanceDB)
    (aid : Int) (account : Account)
    (hfind : db.accounts.find? (fun a => a.id == aid) = some account) :
    (calculate_account_balance_with_display db aid).balance =
      ((db.transactions.filter
        (fun t => t.to_account_id == some aid)).map Transaction.amount).sum -
      ((db.transactions.filter
        (fun t => t.from_account_id == some aid)).map Transaction.amount).sum +
      ((db.bills.filter
        (fun b => b.account_id == some aid)).map Bill.bill_amount).sum ∧
    ((calculate_account_balance_with_display db aid).invert_for_display = true ↔
      account.account_type = "owner") ∧
    calculate_account_balance db aid =
      (calculate_account_balance_with_display db aid).balance ∧
    calculate_account_balance_with_display balanceExampleDB 1 =
      ⟨-180, true⟩ := by
  refine ⟨?_, ?_, rfl, ?_⟩
  · unfold calculate_account_balance_with_display
    rw [hfind]
  · unfold calculate_account_balance_with_display
    rw [hfind]
    simp
  · simp only [calculate_account_balance_with_display, balanceExampleDB,
      List.find?, List.filter, List.map, List.sum]
    norm_num

/-- Witness for C2 on the worked example database. -/
theorem calculate_account_balance_with_display_spec_witness :
    (calculate_account_balance_with_display balanceExampleDB 1).balance =
      ((balanceExampleDB.transactions.filter
        (fun t => t.to_account_id == some 1)).map Transaction.amount).sum -
      ((balanceExampleDB.transactions.filter
        (fun t => t.from_account_id == some 1)).map Transaction.amount).sum +
      ((balanceExampleDB.bills.filter
        (fun b => b.account_id == some 1)).map Bill.bill_amount).sum :=
  (calculate_account_balance_with_display_spec balanceExampleDB 1
    ⟨1, some 10, "owner", "Owner A"⟩ rfl).1

/-- C10: an account id matching no account yields balance 0 with the display
flag cleared, rather than an error. -/
theorem calculate_account_balance_missing_account (db : BalanceDB) (aid : Int)
    (hfind : db.accounts.find? (fun a => a.id == aid) = none) :
    calculate_account_balance_with_display db aid = ⟨0, false⟩ ∧
    calculate_account_balance db aid = 0 := by
  unfold calculate_account_balance calculate_account_balance_with_display
  rw [hfind]
  exact ⟨rfl, rfl⟩

/-- Witness for C10: account id 99 does not exist in the example database. -/
theorem calculate_account_balance_missing_account_witness :
    calculate_account_balance_with_display balanceExampleDB 99 = ⟨0, false⟩ ∧
    calculate_account_balance balanceExampleDB 99 = 0 :=
  calculate_account_balance_missing_account balanceExampleDB 99 rfl

/-! ## Allocation engine (`bills_service.py`) -/

/-- Modelled from the spec: `Property` record (§3) — owner reference,
share weight (nullable), active flag, conservation flag.  The ORM model file
is absent from the snapshot; fields are those read by `BillsService`. -/
structure Property where
  id : Int
  owner_id : Int
  share_weight : Option ℚ
  is_active : Bool
  is_conservation : Bool
deriving DecidableEq

/-- One step of the Python `owner_totals[k] = owner_totals.get(k, 0) + v`
dictionary accumulation, preserving insertion order. -/
def addToOwner (l : List (Int × ℚ)) (k : Int) (v : ℚ) : List (Int × ℚ) :=
  match l with
  | [] => [(k, v)]
  | (k', v') :: rest =>
    if k' = k then (k', v' + v) :: rest else (k', v') :: addToOwner rest k v

/-- Value stored for key `k` in an association list, 0 when absent (the
dictionary `.get(k, 0)` read). -/
def lookupQ (l : List (Int × ℚ)) (k : Int) : ℚ :=
  ((l.find? (fun r => r.1 == k)).map Prod.snd).getD 0

/-- Sum of all stored values. -/
def sumValues (l : List (Int × ℚ)) : ℚ := (l.map Prod.snd).sum

/-- The `(owner_id, share_weight)` rows of the query
`select(Property.owner_id, Property.share_weight).filter(Property.is_active)
.where(Property.share_weight.isnot(None))`. -/
def activeWeighted (props : List Property) : List (Int × ℚ) :=
  props.filterMap (fun p =>
    if p.is_active then p.share_weight.map (fun w => (p.owner_id, w)) else none)

/-- Rows of the same query additionally filtered by
`Property.is_conservation`. -/
def activeConservationWeighted (props : List Property) : List (Int × ℚ) :=
  props.filterMap (fun p =>
    if p.is_active ∧ p.is_conservation then
      p.share_weight.map (fun w => (p.owner_id, w))
    else none)

/-- `BillsService.calculate_main_bills` (bills_service.py, lines 110-151):
guard on budget and month range, fetch active weighted properties, accumulate
`monthly_budget * period_months * (share_weight / 100)` per owner. -/
def calculate_main_bills (props : List Property) (year_budget : ℚ)
    (period_months : Int) : List (Int × ℚ) :=
  if year_budget ≤ 0 ∨ period_months < 1 ∨ period_months > 12 then []
  else
    let properties := activeWeighted props
    if properties = [] then []
    else
      let monthly_budget := year_budget / 12
      properties.foldl (fun acc r =>
        addToOwner acc r.1 (monthly_budget * period_months * (r.2 / 100))) []

/-- `BillsService.calculate_conservation_bills` (bills_service.py, lines
153-208): restrict to active conservation properties, renormalize the weight
pool with `coefficient = 100 / total_share_weight`, accumulate per owner. -/
def calculate_conservation_bills (props : List Property)
    (conservation_year_budget : ℚ) (period_months : Int) : List (Int × ℚ) :=
  if conservation_year_budget ≤ 0 ∨ period_months < 1 ∨ period_months > 12 then
    []
  else
    let properties := activeConservationWeighted props
    if properties = [] then []
    else
      let total_share_weight := (properties.map Prod.snd).sum
      if total_share_weight ≤ 0 then []
      else
        let coefficient := 100 / total_share_weight
        let monthly_budget := conservation_year_budget / 12
        properties.foldl (fun acc r =>
          addToOwner acc r.1
            (monthly_budget * period_months * ((r.2 * coefficient) / 100))) []

theorem lookupQ_nil (k : Int) : lookupQ [] k = 0 := rfl

theorem lookupQ_cons (k0 : Int) (v0 : ℚ) (tl : List (Int × ℚ)) (k : Int) :
    lookupQ ((k0, v0) :: tl) k = if k0 = k then v0 else lookupQ tl k := by
  by_cases h : k0 = k
  · subst h
    simp [lookupQ]
  · simp [lookupQ, List.find?_cons, h]

theorem addToOwner_cons (k0 : Int) (v0 : ℚ) (tl : List (Int × ℚ)) (k : Int)
    (v : ℚ) :
    addToOwner ((k0, v0) :: tl) k v =
      if k0 = k then (k0, v0 + v) :: tl
      else (k0, v0) :: addToOwner tl k v := rfl

theorem lookupQ_addToOwner (l : List (Int × ℚ)) (k' k : Int) (v : ℚ) :
    lookupQ (addToOwner l k' v) k =
      lookupQ l k + if k' = k then v else 0 := by
  induction l with
  | nil =>
    by_cases h : k' = k <;>
      simp [addToOwner, lookupQ_cons, lookupQ_nil, h]
  | cons hd tl ih =>
    obtain ⟨k0, v0⟩ := hd
    rw [addToOwner_cons]
    by_cases hkk : k0 = k'
    · rw [if_pos hkk]
      subst hkk
      by_cases h : k0 = k
      · subst h
        rw [lookupQ_cons, lookupQ_cons, if_pos rfl, if_pos rfl, if_pos rfl]
      · rw [lookupQ_cons, lookupQ_cons, if_neg h, if_neg h, if_neg h,
          add_zero]
    · rw [if_neg hkk]
      by_cases h : k0 = k
      · subst h
        rw [lookupQ_cons, lookupQ_cons, if_pos rfl, if_pos rfl,
          if_neg fun he => hkk he.symm, add_zero]
      · rw [lookupQ_cons, lookupQ_cons, if_neg h, if_neg h, ih]

theorem sumValues_addToOwner (l : List (Int × ℚ)) (k : Int) (v : ℚ) :
    sumValues (addToOwner l k v) = sumValues l + v := by
  induction l with
  | nil => simp [addToOwner, sumValues]
  | cons hd tl ih =>
    obtain ⟨k0, v0⟩ := hd
    rw [addToOwner_cons]
    by_cases h : k0 = k
    · rw [if_pos h]
      simp only [sumValues, List.map_cons, List.sum_cons]
      ring
    · rw [if_neg h]
      simp only [sumValues, List.map_cons, List.sum_cons] at ih ⊢
      rw [ih]
      ring

theorem lookupQ_foldl (rows : List (Int × ℚ)) (f : Int × ℚ → ℚ)
    (init : List (Int × ℚ)) (k : Int) :
    lookupQ (rows.foldl (fun acc r => addToOwner acc r.1 (f r)) init) k =
      lookupQ init k + ((rows.filter (fun r => r.1 == k)).map f).sum := by
  induction rows generalizing init with
  | nil => simp
  | cons hd tl ih =>
    simp only [List.foldl_cons, ih, lookupQ_addToOwner, List.filter_cons]
    by_cases h : hd.1 = k
    · simp [h]
      ring
    · simp [h]

theorem sumValues_foldl (rows : List (Int × ℚ)) (f : Int × ℚ → ℚ)
    (init : List (Int × ℚ)) :
    sumValues (rows.foldl (fun acc r => addToOwner acc r.1 (f r)) init) =
      sumValues init + (rows.map f).sum := by
  induction rows generalizing init with
  | nil => simp
  | cons hd tl ih =>
    simp only [List.foldl_cons, ih, sumValues_addToOwner, List.map_cons,
      List.sum_cons]
    ring

theorem sum_map_mul_const (l : List (Int × ℚ)) (c : ℚ) (f : Int × ℚ → ℚ) :
    (l.map (fun r => f r * c)).sum = (l.map f).sum * c := by
  induction l with
  | nil => simp
  | cons hd tl ih => simp [ih, add_mul]

/-- Example property table for the allocation witnesses: owner 10 holds two
active properties (one conservation), owner 11 holds one, plus an inactive
and a weightless property that the queries must ignore. -/
def allocExampleProps : List Property :=
  [⟨1, 10, some 30, true, false⟩,
   ⟨2, 10, some 20, true, true⟩,
   ⟨3, 11, some 50, true, false⟩,
   ⟨4, 11, some 40, false, false⟩,
   ⟨5, 12, none, true, false⟩]

/-- C4: whenever the budget is non-positive or the month count is outside
1..12, `calculate_main_bills` returns the empty list (no error); otherwise
each owner's entry is the sum, over that owner's active non-null-weight
properties, of `(year_budget / 12) * period_months * (weight / 100)`. -/
theorem calculate_main_bills_spec (props : List Property) (year_budget : ℚ)
    (period_months : Int) :
    (year_budget ≤ 0 ∨ period_months < 1 ∨ period_months > 12 →
      calculate_main_bills props year_budget period_months = []) ∧
    (0 < year_budget → 1 ≤ period_months → period_months ≤ 12 →
      ∀ owner : Int,
        lookupQ (calculate_main_bills props year_budget period_months) owner =
          (((activeWeighted props).filter (fun r => r.1 == owner)).map
            (fun r => year_budget / 12 * period_months * (r.2 / 100))).sum) := by
  constructor
  · intro h
    unfold calculate_main_bills
    rw [if_pos h]
  · intro hb h1 h2 owner
    unfold calculate_main_bills
    rw [if_neg (by push_neg; exact ⟨hb, h1, h2⟩)]
    by_cases hp : activeWeighted props = []
    · rw [if_pos hp, hp]
      simp [lookupQ_nil]
    · rw [if_neg hp]
      rw [lookupQ_foldl (activeWeighted props)
        (fun r => year_budget / 12 * period_months * (r.2 / 100)) [] owner]
      simp [lookupQ_nil]

/-- Witness for C4 at the example property table. -/
theorem calculate_main_bills_spec_witness :
    lookupQ (calculate_main_bills allocExampleProps 1200 3) 10 =
      (((activeWeighted allocExampleProps).filter (fun r => r.1 == 10)).map
        (fun r => (1200:ℚ) / 12 * (3:Int) * (r.2 / 100))).sum :=
  (calculate_main_bills_spec allocExampleProps 1200 3).2
    (by norm_num) (by norm_num) (by norm_num) 10

/-- C3: for a positive conservation budget and month count in 1..12, the
computation restricts to active conservation properties with a weight; an
empty subset or non-positive weight sum yields the empty result (no division
error); otherwise the weights renormalized by `100 / Σweight` sum to exactly
100, and the per-owner amounts sum to `budget / 12 * period_months`
independently of the weights. -/
theorem calculate_conservation_bills_spec (props : List Property)
    (budget : ℚ) (months : Int) (hb : 0 < budget) (h1 : 1 ≤ months)
    (h2 : months ≤ 12) :
    (activeConservationWeighted props = [] ∨
        ((activeConservationWeighted props).map Prod.snd).sum ≤ 0 →
      calculate_conservation_bills props budget months = []) ∧
    (activeConservationWeighted props ≠ [] →
      0 < ((activeConservationWeighted props).map Prod.snd).sum →
      ((activeConservationWeighted props).map (fun r =>
          r.2 * (100 / ((activeConservationWeighted props).map Prod.snd).sum))).sum
        = 100 ∧
      sumValues (calculate_conservation_bills props budget months) =
        budget / 12 * months) := by
  have hvalid : ¬(budget ≤ 0 ∨ months < 1 ∨ months > 12) := by
    push_neg
    exact ⟨hb, h1, h2⟩
  constructor
  · intro h
    unfold calculate_conservation_bills
    rw [if_neg hvalid]
    rcases h with he | hw
    · rw [if_pos he]
    · by_cases he : activeConservationWeighted props = []
      · rw [if_pos he]
      · rw [if_neg he, if_pos hw]
  · intro hne hW
    have hW0 : ((activeConservationWeighted props).map Prod.snd).sum ≠ 0 :=
      ne_of_gt hW
    constructor
    · have := sum_map_mul_const (activeConservationWeighted props)
        (100 / ((activeConservationWeighted props).map Prod.snd).sum) Prod.snd
      rw [this]
      field_simp
    · unfold calculate_conservation_bills
      rw [if_neg hvalid, if_neg hne, if_neg (not_le.mpr hW)]
      rw [sumValues_foldl (activeConservationWeighted props)
        (fun r => budget / 12 * months *
          ((r.2 * (100 / ((activeConservationWeighted props).map Prod.snd).sum)) / 100)) []]
      have hmap : (activeConservationWeighted props).map
          (fun r => budget / 12 * months *
            ((r.2 * (100 / ((activeConservationWeighted props).map Prod.snd).sum)) / 100)) =
          (activeConservationWeighted props).map
            (fun r => Prod.snd r *
              (budget / 12 * months /
                ((activeConservationWeighted props).map Prod.snd).sum)) := by
        apply List.map_congr_left
        intro r _
        field_simp
        ring
      rw [hmap, sum_map_mul_const (activeConservationWeighted props) _ Prod.snd]
      simp only [sumValues, List.map_nil, List.sum_nil, zero_add]
      field_simp
      ring

/-- Witness for C3 at the spec's example: conservation weights 1.0 and 0.5,
so the coefficient is 100/1.5 and the normalized weights sum to 100. -/
theorem calculate_conservation_bills_spec_witness :
    ((activeConservationWeighted
        [⟨1, 10, some 1, true, true⟩, ⟨2, 11, some (1/2), true, true⟩]).map
      (fun r => r.2 * (100 / ((activeConservationWeighted
        [⟨1, 10, some 1, true, true⟩,
         ⟨2, 11, some (1/2), true, true⟩]).map Prod.snd).sum))).sum = 100 ∧
    sumValues (calculate_conservation_bills
        [⟨1, 10, some 1, true, true⟩, ⟨2, 11, some (1/2), true, true⟩]
        150 2) = 150 / 12 * 2 :=
  (calculate_conservation_bills_spec
      [⟨1, 10, some 1, true, true⟩, ⟨2, 11, some (1/2), true, true⟩]
      150 2 (by norm_num) (by norm_num) (by norm_num)).2
    (by simp [activeConservationWeighted])
    (by simp [activeConservationWeighted]; norm_num)

/-- Modelled from the spec: `User` record fields read by
`distribute_shared_costs` (id and display name).  The ORM model file is
absent from the snapshot. -/
structure User where
  id : Int
  name : Option String
deriving DecidableEq

/-- `OwnerShare` named tuple (bills_service.py, lines 20-29). -/
structure OwnerShare where
  user_id : Int
  user_name : String
  total_share_weight : ℚ
  calculated_bill_amount : ℚ
deriving DecidableEq

/-- SQL `sum` aggregation step: NULL operands are skipped and an all-NULL
group sums to NULL. -/
def sqlAddWeight : Option ℚ → Option ℚ → Option ℚ
  | none, w => w
  | some s, none => some s
  | some s, some w => some (s + w)

/-- One `GROUP BY owner_id` accumulation step (insertion order of first
occurrence, SQL NULL-skipping sum per group). -/
def addWeight (l : List (Int × Option ℚ)) (k : Int) (w : Option ℚ) :
    List (Int × Option ℚ) :=
  match l with
  | [] => [(k, w)]
  | (k', w') :: rest =>
    if k' = k then (k', sqlAddWeight w' w) :: rest
    else (k', w') :: addWeight rest k w

/-- `BillsService.calculate_owner_shares` (bills_service.py, lines 423-455):
group active properties by owner with a SQL sum of `share_weight`, then drop
owners whose total is NULL. -/
def calculate_owner_shares (props : List Property) : List (Int × ℚ) :=
  ((props.filter (fun p => p.is_active)).foldl
      (fun acc p => addWeight acc p.owner_id p.share_weight) []).filterMap
    (fun r => r.2.map (fun t => (r.1, t)))

/-- `BillsService.distribute_shared_costs` (bills_service.py, lines 457-515):
reject a negative total, return empty on no owners or zero weight sum, else
give each resolvable owner `roundHalfUp2 (total * (weight / Σweights))`,
skipping owners whose `User` row is missing. -/
def distribute_shared_costs (users : List User) (props : List Property)
    (total_shared_cost : ℚ) : Except String (List OwnerShare) :=
  if total_shared_cost < 0 then
    .error "Total shared cost cannot be negative"
  else
    let owner_shares := calculate_owner_shares props
    if owner_shares = [] then .ok []
    else
      let total_weight_sum := (owner_shares.map Prod.snd).sum
      if total_weight_sum = 0 then .ok []
      else
        .ok (owner_shares.filterMap (fun r =>
          (users.find? (fun u => u.id == r.1)).map (fun u =>
            OwnerShare.mk r.1
              (u.name.getD (String.append "User " (toString r.1))) r.2
              (roundHalfUp2 (total_shared_cost * (r.2 / total_weight_sum))))))

theorem abs_sum_roundHalfUp2_sub (l : List ℚ) :
    |(l.map roundHalfUp2).sum - l.sum| ≤ (l.length : ℚ) * (1/200) := by
  induction l with
  | nil => simp
  | cons hd tl ih =>
    simp only [List.map_cons, List.sum_cons, List.length_cons]
    have h1 := roundHalfUp2_error hd
    have habs : |roundHalfUp2 hd + (tl.map roundHalfUp2).sum - (hd + tl.sum)| ≤
        |roundHalfUp2 hd - hd| + |(tl.map roundHalfUp2).sum - tl.sum| := by
      have : roundHalfUp2 hd + (tl.map roundHalfUp2).sum - (hd + tl.sum) =
          (roundHalfUp2 hd - hd) + ((tl.map roundHalfUp2).sum - tl.sum) := by
        ring
      rw [this]
      exact abs_add _ _
    push_cast
    nlinarith [habs, h1, ih]

/-- When every owner in `l` resolves to a `User` row, the `filterMap` in
`distribute_shared_costs` behaves as a total map: one share per owner, with
the weight copied and the amount given by the rounding formula. -/
theorem distribute_filterMap_resolve (users : List User)
    (l : List (Int × ℚ)) (total W : ℚ)
    (h : ∀ r ∈ l, (users.find? (fun u => u.id == r.1)).isSome = true) :
    (l.filterMap (fun r =>
        (users.find? (fun u => u.id == r.1)).map (fun u =>
          OwnerShare.mk r.1
            (u.name.getD (String.append "User " (toString r.1))) r.2
            (roundHalfUp2 (total * (r.2 / W)))))).length = l.length ∧
    (∀ s ∈ l.filterMap (fun r =>
        (users.find? (fun u => u.id == r.1)).map (fun u =>
          OwnerShare.mk r.1
            (u.name.getD (String.append "User " (toString r.1))) r.2
            (roundHalfUp2 (total * (r.2 / W))))),
      (s.user_id, s.total_share_weight) ∈ l ∧
      s.calculated_bill_amount =
        roundHalfUp2 (total * (s.total_share_weight / W))) ∧
    (l.filterMap (fun r =>
        (users.find? (fun u => u.id == r.1)).map (fun u =>
          OwnerShare.mk r.1
            (u.name.getD (String.append "User " (toString r.1))) r.2
            (roundHalfUp2 (total * (r.2 / W)))))).map
      OwnerShare.calculated_bill_amount =
      l.map (fun r => roundHalfUp2 (total * (r.2 / W))) := by
  induction l with
  | nil => simp
  | cons hd tl ih =>
    have hhd := h hd (List.mem_cons_self hd tl)
    obtain ⟨u, hu⟩ := Option.isSome_iff_exists.mp hhd
    have htl := ih fun r hr => h r (List.mem_cons_of_mem hd hr)
    simp only [List.filterMap_cons, hu, Option.map_some]
    refine ⟨by simp [htl.1], ?_, by simp [htl.2.2]⟩
    intro s hs
    rcases List.mem_cons.mp hs with hhead | htail
    · subst hhead
      exact ⟨List.mem_cons_self _ _, rfl⟩
    · obtain ⟨hmem, hamt⟩ := htl.2.1 s htail
      exact ⟨List.mem_cons_of_mem hd hmem, hamt⟩

/-- C5: `distribute_shared_costs` rejects every negative total with an error;
for a non-negative total, a non-empty owner set with positive weight sum and
all owners resolving to users, every share equals
`total * (weight / Σweights)` rounded half-up to 2 decimals, and the sum of
the shares differs from the total by at most `0.01 × N` for `N` owners. -/
theorem distribute_shared_costs_spec (users : List User)
    (props : List Property) (total : ℚ) (h0 : 0 ≤ total)
    (hne : calculate_owner_shares props ≠ [])
    (hW : 0 < ((calculate_owner_shares props).map Prod.snd).sum)
    (hres : ∀ r ∈ calculate_owner_shares props,
      (users.find? (fun u => u.id == r.1)).isSome = true) :
    (∀ t : ℚ, t < 0 →
      ∃ msg, distribute_shared_costs users props t = .error msg) ∧
    ∃ shares, distribute_shared_costs users props total = .ok shares ∧
      shares.length = (calculate_owner_shares props).length ∧
      (∀ s ∈ shares,
        (s.user_id, s.total_share_weight) ∈ calculate_owner_shares props ∧
        s.calculated_bill_amount = roundHalfUp2 (total * (s.total_share_weight /
          ((calculate_owner_shares props).map Prod.snd).sum))) ∧
      |(shares.map OwnerShare.calculated_bill_amount).sum - total| ≤
        (shares.length : ℚ) * (1/100) := by
  have hW0 : ((calculate_owner_shares props).map Prod.snd).sum ≠ 0 :=
    ne_of_gt hW
  constructor
  · intro t ht
    unfold distribute_shared_costs
    rw [if_pos ht]
    exact ⟨_, rfl⟩
  · obtain ⟨hlen, hmem, hmap⟩ := distribute_filterMap_resolve users
      (calculate_owner_shares props) total
      ((calculate_owner_shares props).map Prod.snd).sum hres
    refine ⟨_, ?_, hlen, hmem, ?_⟩
    · unfold distribute_shared_costs
      rw [if_neg (not_lt.mpr h0), if_neg hne, if_neg hW0]
    · rw [hmap, hlen]
      have hcomp : (calculate_owner_shares props).map
          (fun r => roundHalfUp2 (total * (r.2 /
            ((calculate_owner_shares props).map Prod.snd).sum))) =
          ((calculate_owner_shares props).map (fun r => total * (r.2 /
            ((calculate_owner_shares props).map Prod.snd).sum))).map
            roundHalfUp2 := by
        rw [List.map_map]
        rfl
      have hsum : ((calculate_owner_shares props).map (fun r => total * (r.2 /
          ((calculate_owner_shares props).map Prod.snd).sum))).sum = total := by
        have hcongr : (calculate_owner_shares props).map (fun r => total * (r.2 /
            ((calculate_owner_shares props).map Prod.snd).sum)) =
            (calculate_owner_shares props).map (fun r => Prod.snd r *
              (total / ((calculate_owner_shares props).map Prod.snd).sum)) := by
          apply List.map_congr_left
          intro r _
          field_simp
          ring
        rw [hcongr, sum_map_mul_const]
        field_simp
      have hbound := abs_sum_roundHalfUp2_sub
        ((calculate_owner_shares props).map (fun r => total * (r.2 /
          ((calculate_owner_shares props).map Prod.snd).sum)))
      rw [hsum, List.length_map] at hbound
      calc |(((calculate_owner_shares props).map (fun r =>
            roundHalfUp2 (total * (r.2 /
              ((calculate_owner_shares props).map Prod.snd).sum)))).sum - total)|
          = |(((calculate_owner_shares props).map (fun r => total * (r.2 /
              ((calculate_owner_shares props).map Prod.snd).sum))).map
                roundHalfUp2).sum - total| := by rw [hcomp]
        _ ≤ ((calculate_owner_shares props).length : ℚ) * (1/200) := hbound
        _ ≤ ((calculate_owner_shares props).length : ℚ) * (1/100) := by
            have hn : (0:ℚ) ≤ ((calculate_owner_shares props).length : ℚ) := by
              positivity
            nlinarith

/-- Witness for C5: two owners with weights 30+20 and 50, total 100.37. -/
theorem distribute_shared_costs_spec_witness :
    ∃ shares, distribute_shared_costs
        [⟨10, some "Anna"⟩, ⟨11, none⟩] allocExampleProps (10037/100) =
        .ok shares ∧
      shares.length = (calculate_owner_shares allocExampleProps).length ∧
      (∀ s ∈ shares,
        (s.user_id, s.total_share_weight) ∈
          calculate_owner_shares allocExampleProps ∧
        s.calculated_bill_amount =
          roundHalfUp2 ((10037/100) * (s.total_share_weight /
            ((calculate_owner_shares allocExampleProps).map Prod.snd).sum))) ∧
      |(shares.map OwnerShare.calculated_bill_amount).sum - 10037/100| ≤
        (shares.length : ℚ) * (1/100) :=
  (distribute_shared_costs_spec [⟨10, some "Anna"⟩, ⟨11, none⟩]
      allocExampleProps (10037/100) (by norm_num)
      (by simp [calculate_owner_shares, allocExampleProps, addWeight,
        sqlAddWeight])
      (by simp [calculate_owner_shares, allocExampleProps, addWeight,
        sqlAddWeight]; norm_num)
      (by simp [calculate_owner_shares, allocExampleProps, addWeight,
        sqlAddWeight, List.find?])).2

/-! ## Admission workflow (`request_service.py`, `admin_service.py`) -/

/-- Request lifecycle states (§3). -/
inductive RequestStatus
  | pending
  | approved
  | rejected
deriving BEq, DecidableEq

/-- Modelled from the spec: `AccessRequest` record (§3) — requester telegram
identity and optional username, message, status, admin identity and response
once resolved.  The ORM model file is absent from the snapshot; fields are
those read and written by the services. -/
structure AccessRequest where
  id : Int
  user_telegram_id : Int
  user_telegram_username : Option String
  request_message : String
  status : RequestStatus
  admin_telegram_id : Option Int
  admin_response : Option String
deriving DecidableEq

/-- `AuditLog` entry as staged by `AuditService.log`. -/
structure AuditEntry where
  entity_type : String
  entity_id : Int
  action : String
  actor_id : Option Int
deriving DecidableEq

/-- Persistent store touched by the admission workflow: the request table
and the append-only audit log. -/
structure RequestStore where
  requests : List AccessRequest
  audit : List AuditEntry
deriving DecidableEq

/-- `RequestService.create_request` (request_service.py, lines 20-81): if a
pending request for the telegram identity exists, return `None` without
touching the store; otherwise insert one new pending request (`new_id` is
the id assigned by the flush) and stage one audit entry with no actor. -/
def create_request (st : RequestStore) (new_id : Int)
    (user_telegram_id : Int) (request_message : String)
    (user_telegram_username : Option String) :
    Option AccessRequest × RequestStore :=
  match st.requests.find? (fun r =>
      r.user_telegram_id == user_telegram_id &&
      r.status == RequestStatus.pending) with
  | some _ => (none, st)
  | none =>
    let new_request : AccessRequest :=
      ⟨new_id, user_telegram_id, user_telegram_username, request_message,
        RequestStatus.pending, none, none⟩
    (some new_request,
      ⟨st.requests ++ [new_request],
       st.audit ++ [⟨"access_request", new_id, "create", none⟩]⟩)

/-- `AdminService.reject_request` (admin_service.py, lines 124-179): load the
request by id (`None` when absent, store untouched); otherwise — with no
check of the current status — set status to rejected, record the admin's
telegram id and the canned response, stage one audit entry, and return the
updated request. -/
def reject_request (st : RequestStore) (request_id : Int)
    (admin_telegram_id : Int) (admin_user_id : Int) :
    Option AccessRequest × RequestStore :=
  match st.requests.find? (fun r => r.id == request_id) with
  | none => (none, st)
  | some request =>
    let updated : AccessRequest :=
      { request with
          status := RequestStatus.rejected
          admin_telegram_id := some admin_telegram_id
          admin_response := some "rejected" }
    (some updated,
      ⟨st.requests.map (fun r => if r.id == request_id then updated else r),
       st.audit ++ [⟨"access_request", request.id, "reject",
         some admin_user_id⟩]⟩)

/-- Number of pending requests stored for one telegram identity. -/
def pendingCount (st : RequestStore) (tid : Int) : Nat :=
  (st.requests.filter (fun r =>
    r.user_telegram_id == tid && r.status == RequestStatus.pending)).length

/-- A store holding a single already-approved request, id 1. -/
def approvedStore : RequestStore :=
  ⟨[⟨1, 500, none, "please let me in", RequestStatus.approved, some 99,
      some "approved"⟩], []⟩

/-- Counterexample to C6: rejecting the already-approved request 1 does not
fail — it succeeds and rewrites the request's status, admin identity and
response. -/
theorem reject_request_overwrites_approved :
    approvedStore.requests = [⟨1, 500, none, "please let me in",
      RequestStatus.approved, some 99, some "approved"⟩] ∧
    (reject_request approvedStore 1 77 5).1 =
      some ⟨1, 500, none, "please let me in", RequestStatus.rejected,
        some 77, some "rejected"⟩ ∧
    (reject_request approvedStore 1 77 5).2.requests =
      [⟨1, 500, none, "please let me in", RequestStatus.rejected, some 77,
        some "rejected"⟩] :=
  ⟨rfl, rfl, rfl⟩

/-- C6 (amended): `reject_request` guards only on existence: a missing id
fails softly and leaves the store unchanged, while any found request —
whatever its current status, including `approved` — is overwritten to
rejected with the admin identity and canned response recorded and one audit
entry staged; terminal states are not protected. -/
theorem reject_request_spec (st : RequestStore) (rid atid auid : Int) :
    (st.requests.find? (fun r => r.id == rid) = none →
      reject_request st rid atid auid = (none, st)) ∧
    (∀ request, st.requests.find? (fun r => r.id == rid) = some request →
      (reject_request st rid atid auid).1 =
        some { request with
          status := RequestStatus.rejected
          admin_telegram_id := some atid
          admin_response := some "rejected" } ∧
      (reject_request st rid atid auid).2.requests =
        st.requests.map (fun r => if r.id == rid then
          { request with
              status := RequestStatus.rejected
              admin_telegram_id := some atid
              admin_response := some "rejected" }
          else r) ∧
      (reject_request st rid atid auid).2.audit =
        st.audit ++ [⟨"access_request", request.id, "reject", some auid⟩]) := by
  constructor
  · intro hnone
    unfold reject_request
    rw [hnone]
  · intro request hfind
    unfold reject_request
    rw [hfind]
    exact ⟨rfl, rfl, rfl⟩

/-- Witness for the amended C6 on the approved-request store. -/
theorem reject_request_spec_witness :
    (reject_request approvedStore 1 77 5).1 =
      some { (⟨1, 500, none, "please let me in", RequestStatus.approved,
          some 99, some "approved"⟩ : AccessRequest) with
        status := RequestStatus.rejected
        admin_telegram_id := some 77
        admin_response := some "rejected" } :=
  ((reject_request_spec approvedStore 1 77 5).2
    ⟨1, 500, none, "please let me in", RequestStatus.approved, some 99,
      some "approved"⟩ rfl).1

/-- C7: `create_request` is a soft no-op (returns `None`, store untouched)
exactly when a pending request for the identity already exists; otherwise it
inserts one new pending request and stages one audit entry with no actor;
consequently a store with at most one pending request per identity still has
at most one after the call. -/
theorem create_request_spec (st : RequestStore) (new_id tid : Int)
    (msg : String) (uname : Option String) :
    ((∃ r, st.requests.find? (fun r =>
        r.user_telegram_id == tid && r.status == RequestStatus.pending) =
          some r) →
      create_request st new_id tid msg uname = (none, st)) ∧
    (st.requests.find? (fun r =>
        r.user_telegram_id == tid && r.status == RequestStatus.pending) =
          none →
      create_request st new_id tid msg uname =
        (some ⟨new_id, tid, uname, msg, RequestStatus.pending, none, none⟩,
         ⟨st.requests ++
            [⟨new_id, tid, uname, msg, RequestStatus.pending, none, none⟩],
          st.audit ++ [⟨"access_request", new_id, "create", none⟩]⟩)) ∧
    (∀ tid' : Int, pendingCount st tid' ≤ 1 →
      pendingCount (create_request st new_id tid msg uname).2 tid' ≤ 1) := by
  refine ⟨?_, ?_, ?_⟩
  · rintro ⟨r, hr⟩
    unfold create_request
    rw [hr]
  · intro hnone
    unfold create_request
    rw [hnone]
  · intro tid' hinv
    unfold create_request
    cases hfind : st.requests.find? (fun r =>
        r.user_telegram_id == tid && r.status == RequestStatus.pending) with
    | some r => exact hinv
    | none =>
      by_cases htid : tid' = tid
      · subst htid
        have hempty : st.requests.filter (fun r =>
            r.user_telegram_id == tid' &&
            r.status == RequestStatus.pending) = [] := by
          apply List.filter_eq_nil_iff.mpr
          intro a ha
          have := List.find?_eq_none.mp hfind a ha
          simpa using this
        simp only [pendingCount, List.filter_append, List.length_append]
        rw [hempty]
        simp only [List.length_nil, Nat.zero_add]
        exact le_trans (List.length_filter_le _ _) (by simp)
      · simp only [pendingCount, List.filter_append, List.length_append]
        have h2 : ¬(tid = tid') := fun he => htid he.symm
        have hnew : ([(⟨new_id, tid, uname, msg, RequestStatus.pending, none,
            none⟩ : AccessRequest)].filter (fun r =>
              r.user_telegram_id == tid' &&
              r.status == RequestStatus.pending)) = [] := by
          have hb : (tid == tid') = false := beq_eq_false_iff_ne.mpr h2
          simp [List.filter, hb]
        rw [hnew]
        simpa using hinv

/-- Witness for C7: creating a request for identity 500 in a store that has
only an approved one for that identity (so no pending) inserts a pending
request and one actor-less audit entry. -/
theorem create_request_spec_witness :
    create_request approvedStore 2 500 "second try" none =
      (some ⟨2, 500, none, "second try", RequestStatus.pending, none, none⟩,
       ⟨approvedStore.requests ++
          [⟨2, 500, none, "second try", RequestStatus.pending, none, none⟩],
        approvedStore.audit ++ [⟨"access_request", 2, "create", none⟩]⟩) :=
  (create_request_spec approvedStore 2 500 "second try" none).2.1 rfl

/-! ## Period lifecycle (`period_service.py`) -/

/-- Modelled from the spec: `ServicePeriod` record (§3) — status ∈
{open, closed}, captured electricity parameters and annual budgets.  The ORM
model file is absent from the snapshot; fields are those the service reads
and writes. -/
structure ServicePeriod where
  id : Int
  name : String
  status : String
  period_months : Int
  year_budget : Option ℚ
  conservation_year_budget : Option ℚ
  electricity_start : Option ℚ
  electricity_end : Option ℚ
  electricity_multiplier : Option ℚ
  electricity_rate : Option ℚ
  electricity_losses : Option ℚ
deriving DecidableEq

/-- Period table plus the audit log written by the period service. -/
structure PeriodStore where
  periods : List ServicePeriod
  audit : List AuditEntry
deriving DecidableEq

/-- `ServicePeriodService.get_by_id` (period_service.py, lines 65-74). -/
def get_by_id (periods : List ServicePeriod) (period_id : Int) :
    Option ServicePeriod :=
  periods.find? (fun p => p.id == period_id)

/-- `ServicePeriodService.update_budget_data` (period_service.py, lines
338-386): `False` when the period is missing, otherwise overwrite both
budgets — with no check of the period's status — stage one audit entry and
return `True`. -/
def update_budget_data (st : PeriodStore) (period_id : Int)
    (year_budget conservation_year_budget : ℚ) (actor_id : Option Int) :
    Bool × PeriodStore :=
  match get_by_id st.periods period_id with
  | none => (false, st)
  | some period =>
    let updated : ServicePeriod :=
      { period with
          year_budget := some year_budget
          conservation_year_budget := some conservation_year_budget }
    (true,
      ⟨st.periods.map (fun p => if p.id == period_id then updated else p),
       st.audit ++ [⟨"service_period", period.id, "update", actor_id⟩]⟩)

/-- `ServicePeriodService.update_electricity_data` (period_service.py, lines
273-336): same shape, overwriting the five electricity fields. -/
def update_electricity_data (st : PeriodStore) (period_id : Int)
    (electricity_start electricity_end electricity_multiplier
      electricity_rate electricity_losses : ℚ) (actor_id : Option Int) :
    Bool × PeriodStore :=
  match get_by_id st.periods period_id with
  | none => (false, st)
  | some period =>
    let updated : ServicePeriod :=
      { period with
          electricity_start := some electricity_start
          electricity_end := some electricity_end
          electricity_multiplier := some electricity_multiplier
          electricity_rate := some electricity_rate
          electricity_losses := some electricity_losses }
    (true,
      ⟨st.periods.map (fun p => if p.id == period_id then updated else p),
       st.audit ++ [⟨"service_period", period.id, "update", actor_id⟩]⟩)

/-- `ServicePeriodService.close_period` (period_service.py, lines 388-429):
`False` when the period is missing, otherwise set status to "closed" (again
with no status guard) and stage one audit entry. -/
def close_period (st : PeriodStore) (period_id : Int)
    (actor_id : Option Int) : Bool × PeriodStore :=
  match get_by_id st.periods period_id with
  | none => (false, st)
  | some period =>
    let updated : ServicePeriod := { period with status := "closed" }
    (true,
      ⟨st.periods.map (fun p => if p.id == period_id then updated else p),
       st.audit ++ [⟨"service_period", period.id, "close", actor_id⟩]⟩)

/-- A store holding a single already-closed period, id 1. -/
def closedStore : PeriodStore :=
  ⟨[⟨1, "P1", "closed", 1, some 100, some 50, none, none, none, none,
      none⟩], []⟩

/-- Counterexample to C8: the budget update on a closed period is not
refused — it returns `True` and rewrites the stored budgets. -/
theorem update_budget_data_mutates_closed :
    (get_by_id closedStore.periods 1).map ServicePeriod.status =
      some "closed" ∧
    (update_budget_data closedStore 1 200 80 none).1 = true ∧
    (update_budget_data closedStore 1 200 80 none).2.periods =
      [⟨1, "P1", "closed", 1, some 200, some 80, none, none, none, none,
        none⟩] :=
  ⟨rfl, rfl, rfl⟩

/-- With primary-key-unique ids, the first match found for `pid` is the only
element with that id. -/
theorem find_eq_of_nodup_ids (periods : List ServicePeriod) (pid : Int)
    (period : ServicePeriod)
    (hnodup : (periods.map ServicePeriod.id).Nodup)
    (hfind : periods.find? (fun p => p.id == pid) = some period) :
    ∀ p ∈ periods, p.id = pid → p = period := by
  intro p hp hpid
  have hmem : period ∈ periods := List.mem_of_find?_eq_some hfind
  have hpid' : period.id = pid := by
    have hprop := List.find?_some hfind
    simpa using hprop
  exact List.inj_on_of_nodup_map hnodup hp hmem (by rw [hpid, hpid'])

theorem period_mutators_core (st : PeriodStore) (pid : Int)
    (yb cyb es ee em er el : ℚ) (actor : Option Int)
    (hnodup : (st.periods.map ServicePeriod.id).Nodup) :
    (get_by_id st.periods pid = none →
      update_budget_data st pid yb cyb actor = (false, st) ∧
      update_electricity_data st pid es ee em er el actor = (false, st) ∧
      close_period st pid actor = (false, st)) ∧
    (update_budget_data st pid yb cyb actor).2.periods.map
        ServicePeriod.status = st.periods.map ServicePeriod.status ∧
    (update_electricity_data st pid es ee em er el actor).2.periods.map
        ServicePeriod.status = st.periods.map ServicePeriod.status ∧
    (close_period st pid actor).2.periods.map ServicePeriod.status =
      st.periods.map (fun p => if p.id == pid then "closed" else p.status) ∧
    (∀ period, get_by_id st.periods pid = some period →
      (update_budget_data st pid yb cyb actor).1 = true ∧
      (update_budget_data st pid yb cyb actor).2.periods =
        st.periods.map (fun p => if p.id == pid then
          { period with
              year_budget := some yb
              conservation_year_budget := some cyb }
          else p)) := by
  refine ⟨?_, ?_, ?_, ?_, ?_⟩
  · intro hnone
    unfold update_budget_data update_electricity_data close_period
    rw [hnone]
    exact ⟨rfl, rfl, rfl⟩
  · unfold update_budget_data
    cases hfind : get_by_id st.periods pid with
    | none => rfl
    | some period =>
      simp only [List.map_map]
      apply List.map_congr_left
      intro p hp
      simp only [Function.comp_apply]
      by_cases h : p.id = pid
      · have hpeq := find_eq_of_nodup_ids st.periods pid period hnodup
          hfind p hp h
        subst hpeq
        simp [h]
      · simp [h]
  · unfold update_electricity_data
    cases hfind : get_by_id st.periods pid with
    | none => rfl
    | some period =>
      simp only [List.map_map]
      apply List.map_congr_left
      intro p hp
      simp only [Function.comp_apply]
      by_cases h : p.id = pid
      · have hpeq := find_eq_of_nodup_ids st.periods pid period hnodup
          hfind p hp h
        subst hpeq
        simp [h]
      · simp [h]
  · unfold close_period
    cases hfind : get_by_id st.periods pid with
    | none =>
      simp only
      apply List.map_congr_left
      intro p hp
      have : (p.id == pid) = false := by
        have := List.find?_eq_none.mp hfind p hp
        simpa using this
      simp [this]
    | some period =>
      simp only [List.map_map]
      apply List.map_congr_left
      intro p hp
      simp only [Function.comp_apply]
      by_cases h : p.id = pid
      · simp [h]
      · simp [h]
  · intro period hfind
    unfold update_budget_data
    rw [hfind]
    exact ⟨rfl, rfl⟩


/-! ## Bill ledger (`bills_service.py`, record operations) -/

/-- The account lookup shared by the three `create_*_bills` loops:
`select(Account).filter(Account.user_id == user_id,
Account.account_type == "owner")` via `scalar_one_or_none` (faithful as a
first-match search when at most one owner account exists per user). -/
def findOwnerAccount (accounts : List Account) (user_id : Int) :
    Option Account :=
  accounts.find? (fun a =>
    a.user_id == some user_id && a.account_type == "owner")

/-- The shared body of `create_shared_electricity_bills` /
`create_main_bills` / `create_conservation_bills` (bills_service.py, lines
43-108, 210-280, 282-352; the three loops are identical up to the bill
type): for each (user, amount) pair resolve the owner account; when absent
skip the pair; when present persist one bill (flush assigns `next_bill_id`)
and stage one audit entry; return the count of bills created together with
the created bills and audit entries. -/
def createBillsLoop (accounts : List Account) (period_id : Int)
    (rows : List (Int × ℚ)) (bill_type : String) (actor_id : Option Int)
    (next_bill_id : Int) : Nat × List Bill × List AuditEntry :=
  match rows with
  | [] => (0, [], [])
  | (user_id, amount) :: rest =>
    match findOwnerAccount accounts user_id with
    | none => createBillsLoop accounts period_id rest bill_type actor_id
        next_bill_id
    | some account =>
      let bill : Bill :=
        ⟨next_bill_id, period_id, some account.id, none, bill_type, amount⟩
      let tail := createBillsLoop accounts period_id rest bill_type actor_id
        (next_bill_id + 1)
      (tail.1 + 1, bill :: tail.2.1,
        ⟨"bill", next_bill_id, "create", actor_id⟩ :: tail.2.2)

/-- `BillsService.create_main_bills` (bills_service.py, lines 210-280),
tuple-input path. -/
def create_main_bills (accounts : List Account) (period_id : Int)
    (calculations : List (Int × ℚ)) (actor_id : Option Int)
    (next_bill_id : Int) : Nat × List Bill × List AuditEntry :=
  createBillsLoop accounts period_id calculations "main" actor_id
    next_bill_id

/-- `BillsService.create_shared_electricity_bills` (bills_service.py, lines
43-108): the same loop over `OwnerShare` values, reading `user_id` and
`calculated_bill_amount`. -/
def create_shared_electricity_bills (accounts : List Account)
    (period_id : Int) (owner_shares : List OwnerShare)
    (actor_id : Option Int) (next_bill_id : Int) :
    Nat × List Bill × List AuditEntry :=
  createBillsLoop accounts period_id
    (owner_shares.map (fun s => (s.user_id, s.calculated_bill_amount)))
    "shared_electricity" actor_id next_bill_id

/-- The `logger` lines emitted by the two recording operations.  Each source
function contains exactly one logging statement: the `logger.info` after the
loop reporting the batch count (bills_service.py, lines 102-106 and
273-278).  The `if account:` block has no `else` branch and no logging call,
so a skipped owner produces no log event. -/
inductive LogEvent
  | createdSharedElectricityBills (bills_created : Nat) (period_id : Int)
  | createdMainBills (bills_created : Nat) (period_id : Int)
      (actor_id : Option Int)
deriving DecidableEq

/-- Log output of `BillsService.create_main_bills`: the single final
count line (bills_service.py, lines 273-278); nothing is logged per
skipped owner. -/
def create_main_bills_logs (accounts : List Account) (period_id : Int)
    (calculations : List (Int × ℚ)) (actor_id : Option Int)
    (next_bill_id : Int) : List LogEvent :=
  [LogEvent.createdMainBills
    (create_main_bills accounts period_id calculations actor_id
      next_bill_id).1 period_id actor_id]

/-- Log output of `BillsService.create_shared_electricity_bills`: the single
final count line (bills_service.py, lines 102-106); nothing is logged per
skipped owner. -/
def create_shared_electricity_bills_logs (accounts : List Account)
    (period_id : Int) (owner_shares : List OwnerShare)
    (actor_id : Option Int) (next_bill_id : Int) : List LogEvent :=
  [LogEvent.createdSharedElectricityBills
    (create_shared_electricity_bills accounts period_id owner_shares
      actor_id next_bill_id).1 period_id]

/-- Counterexample to C9: owner 12 resolves to no owner account and is
skipped (only owner 10's bill is created), yet the operation's entire log
output is the single batch-count line — the claim's "skips (and logs) each
owner with no such account" is false, since no log entry names the skipped
owner. -/
theorem create_bills_skip_unlogged :
    (create_main_bills [⟨7, some 10, "owner", "Anna"⟩] 3
        [(10, 25), (12, 40)] (some 9) 100).1 = 1 ∧
    (create_main_bills [⟨7, some 10, "owner", "Anna"⟩] 3
        [(10, 25), (12, 40)] (some 9) 100).2.1.map
      (fun b => b.account_id) = [some 7] ∧
    create_main_bills_logs [⟨7, some 10, "owner", "Anna"⟩] 3
        [(10, 25), (12, 40)] (some 9) 100 =
      [LogEvent.createdMainBills 1 3 (some 9)] :=
  ⟨rfl, rfl, rfl⟩

theorem createBillsLoop_spec (accounts : List Account) (period_id : Int)
    (rows : List (Int × ℚ)) (bill_type : String) (actor : Option Int)
    (next : Int) :
    (createBillsLoop accounts period_id rows bill_type actor next).1 =
      (rows.filter (fun c => (findOwnerAccount accounts c.1).isSome)).length ∧
    (createBillsLoop accounts period_id rows bill_type actor next).2.1.map
        (fun b => (b.service_period_id, b.account_id, b.bill_type,
          b.bill_amount)) =
      rows.filterMap (fun c => (findOwnerAccount accounts c.1).map
        (fun a => (period_id, some a.id, bill_type, c.2))) ∧
    (createBillsLoop accounts period_id rows bill_type actor next).2.2.map
        AuditEntry.entity_id =
      (createBillsLoop accounts period_id rows bill_type actor next).2.1.map
        Bill.id ∧
    ∀ e ∈ (createBillsLoop accounts period_id rows bill_type actor
        next).2.2,
      e.entity_type = "bill" ∧ e.action = "create" ∧ e.actor_id = actor := by
  induction rows generalizing next with
  | nil => simp [createBillsLoop]
  | cons hd tl ih =>
    obtain ⟨user_id, amount⟩ := hd
    cases hacc : findOwnerAccount accounts user_id with
    | none =>
      obtain ⟨ih1, ih2, ih3, ih4⟩ := ih next
      simp only [createBillsLoop, hacc, List.filter_cons,
        List.filterMap_cons, Option.isSome_none, Bool.false_eq_true,
        if_false, Option.map_none]
      exact ⟨ih1, ih2, ih3, ih4⟩
    | some account =>
      obtain ⟨ih1, ih2, ih3, ih4⟩ := ih (next + 1)
      simp only [createBillsLoop, hacc, List.filter_cons,
        List.filterMap_cons, Option.isSome_some, if_true, Option.map_some,
        List.length_cons, List.map_cons]
      refine ⟨by rw [ih1], by rw [ih2]; rfl, by rw [ih3], ?_⟩
      intro e he
      rcases List.mem_cons.mp he with hhead | htail
      · subst hhead
        exact ⟨rfl, rfl, rfl⟩
      · exact ih4 e htail

/-- C9 (amended): each bill-recording loop creates one bill of its type for
exactly the (owner, amount) pairs whose owner resolves to an owner-typed
account, in order, skipping unresolved owners without failing the batch but
also without any per-owner log — the operation's only log line reports the
batch count; it stages exactly one audit entry per created bill (entity
"bill", action "create", the given actor, entity id equal to the bill's
id); and the returned count equals the number of resolved owners.  Stated
for `create_main_bills` and `create_shared_electricity_bills`. -/
theorem create_bills_record_spec (accounts : List Account) (period_id : Int)
    (calculations : List (Int × ℚ)) (owner_shares : List OwnerShare)
    (actor : Option Int) (next : Int) :
    ((create_main_bills accounts period_id calculations actor next).1 =
      (calculations.filter
        (fun c => (findOwnerAccount accounts c.1).isSome)).length ∧
    (create_main_bills accounts period_id calculations actor next).2.1.map
        (fun b => (b.service_period_id, b.account_id, b.bill_type,
          b.bill_amount)) =
      calculations.filterMap (fun c => (findOwnerAccount accounts c.1).map
        (fun a => (period_id, some a.id, "main", c.2))) ∧
    (create_main_bills accounts period_id calculations actor next).2.2.map
        AuditEntry.entity_id =
      (create_main_bills accounts period_id calculations actor next).2.1.map
        Bill.id ∧
    ∀ e ∈ (create_main_bills accounts period_id calculations actor
        next).2.2,
      e.entity_type = "bill" ∧ e.action = "create" ∧ e.actor_id = actor) ∧
    ((create_shared_electricity_bills accounts period_id owner_shares actor
        next).1 =
      (owner_shares.filter
        (fun s => (findOwnerAccount accounts s.user_id).isSome)).length ∧
    (create_shared_electricity_bills accounts period_id owner_shares actor
        next).2.1.map
        (fun b => (b.service_period_id, b.account_id, b.bill_type,
          b.bill_amount)) =
      owner_shares.filterMap (fun s =>
        (findOwnerAccount accounts s.user_id).map (fun a =>
          (period_id, some a.id, "shared_electricity",
            s.calculated_bill_amount)))) ∧
    (create_main_bills_logs accounts period_id calculations actor next =
      [LogEvent.createdMainBills
        (create_main_bills accounts period_id calculations actor next).1
        period_id actor] ∧
    create_shared_electricity_bills_logs accounts period_id owner_shares
        actor next =
      [LogEvent.createdSharedElectricityBills
        (create_shared_electricity_bills accounts period_id owner_shares
          actor next).1 period_id]) := by
  refine ⟨?_, ?_, rfl, rfl⟩
  · exact createBillsLoop_spec accounts period_id calculations "main" actor
      next
  · obtain ⟨h1, h2, _, _⟩ := createBillsLoop_spec accounts period_id
      (owner_shares.map (fun s => (s.user_id, s.calculated_bill_amount)))
      "shared_electricity" actor next
    constructor
    · rw [create_shared_electricity_bills, h1, List.filter_map,
        List.length_map]
      rfl
    · rw [create_shared_electricity_bills, h2, List.filterMap_map]
      rfl

/-- Witness for C9: two owners, one of whom (user 12) has no owner account
and is skipped; one bill and one audit entry are created. -/
theorem create_bills_record_spec_witness :
    (create_main_bills [⟨7, some 10, "owner", "Anna"⟩] 3
        [(10, 25), (12, 40)] (some 9) 100).1 =
      ([((10:Int), (25:ℚ)), (12, 40)].filter (fun c =>
        (findOwnerAccount [⟨7, some 10, "owner", "Anna"⟩] c.1).isSome)).length ∧
    ∀ e ∈ (create_main_bills [⟨7, some 10, "owner", "Anna"⟩] 3
        [(10, 25), (12, 40)] (some 9) 100).2.2,
      e.entity_type = "bill" ∧ e.action = "create" ∧ e.actor_id = some 9 :=
  ⟨(create_bills_record_spec [⟨7, some 10, "owner", "Anna"⟩] 3
      [(10, 25), (12, 40)] [] (some 9) 100).1.1,
   (create_bills_record_spec [⟨7, some 10, "owner", "Anna"⟩] 3
      [(10, 25), (12, 40)] [] (some 9) 100).1.2.2.2⟩

/-- C8 (amended): the three period mutators guard only on existence (missing
id ⇒ `False`, store untouched); `update_budget_data` and
`update_electricity_data` do mutate a found period — even one whose status
is closed — returning `True` and overwriting the budgets respectively the
electricity readings; bill generation against a closed period is likewise
not refused, since the recording loop consults only the period id and never
its status, creating one bill per resolvable owner exactly as for an open
period; but no operation moves a status back to open — the two update
operations preserve every period's status (given primary-key-unique ids)
and `close_period` only sets statuses to "closed". -/
theorem period_mutators_spec (st : PeriodStore) (pid : Int)
    (yb cyb es ee em er el : ℚ) (actor : Option Int)
    (hnodup : (st.periods.map ServicePeriod.id).Nodup) :
    (get_by_id st.periods pid = none →
      update_budget_data st pid yb cyb actor = (false, st) ∧
      update_electricity_data st pid es ee em er el actor = (false, st) ∧
      close_period st pid actor = (false, st)) ∧
    (update_budget_data st pid yb cyb actor).2.periods.map
        ServicePeriod.status = st.periods.map ServicePeriod.status ∧
    (update_electricity_data st pid es ee em er el actor).2.periods.map
        ServicePeriod.status = st.periods.map ServicePeriod.status ∧
    (close_period st pid actor).2.periods.map ServicePeriod.status =
      st.periods.map (fun p => if p.id == pid then "closed" else p.status) ∧
    (∀ period, get_by_id st.periods pid = some period →
      (update_budget_data st pid yb cyb actor).1 = true ∧
      (update_budget_data st pid yb cyb actor).2.periods =
        st.periods.map (fun p => if p.id == pid then
          { period with
              year_budget := some yb
              conservation_year_budget := some cyb }
          else p)) ∧
    (∀ period, get_by_id st.periods pid = some period →
      (update_electricity_data st pid es ee em er el actor).1 = true ∧
      (update_electricity_data st pid es ee em er el actor).2.periods =
        st.periods.map (fun p => if p.id == pid then
          { period with
              electricity_start := some es
              electricity_end := some ee
              electricity_multiplier := some em
              electricity_rate := some er
              electricity_losses := some el }
          else p)) ∧
    (∀ period, get_by_id st.periods pid = some period →
      period.status = "closed" →
      ∀ (accounts : List Account) (rows : List (Int × ℚ))
        (bill_type : String) (next : Int),
        (createBillsLoop accounts pid rows bill_type actor next).1 =
          (rows.filter
            (fun c => (findOwnerAccount accounts c.1).isSome)).length ∧
        (createBillsLoop accounts pid rows bill_type actor next).2.1.map
            (fun b => (b.service_period_id, b.account_id, b.bill_type,
              b.bill_amount)) =
          rows.filterMap (fun c => (findOwnerAccount accounts c.1).map
            (fun a => (pid, some a.id, bill_type, c.2)))) := by
  obtain ⟨hA, hB, hC, hD, hE⟩ := period_mutators_core st pid yb cyb es ee em
    er el actor hnodup
  refine ⟨hA, hB, hC, hD, hE, ?_, ?_⟩
  · intro period hfind
    unfold update_electricity_data
    rw [hfind]
    exact ⟨rfl, rfl⟩
  · intro period hfind hclosed accounts rows bill_type next
    obtain ⟨hcount, hbills, _, _⟩ := createBillsLoop_spec accounts pid rows
      bill_type actor next
    exact ⟨hcount, hbills⟩

/-- Witness for the amended C8 on the closed-period store: the budget and
electricity updates both succeed against the closed period, and bill
generation against it still creates a bill for the resolvable owner. -/
theorem period_mutators_spec_witness :
    (update_budget_data closedStore 1 200 80 none).1 = true ∧
    (update_budget_data closedStore 1 200 80 none).2.periods =
      closedStore.periods.map (fun p => if p.id == 1 then
        { (⟨1, "P1", "closed", 1, some 100, some 50, none, none, none, none,
            none⟩ : ServicePeriod) with
            year_budget := some (200:ℚ)
            conservation_year_budget := some (80:ℚ) }
        else p) ∧
    (update_electricity_data closedStore 1 10 20 1 5 0 none).1 = true ∧
    (createBillsLoop [⟨7, some 10, "owner", "Anna"⟩] 1 [(10, 25)] "main"
        none 100).1 =
      ([((10:Int), (25:ℚ))].filter (fun c =>
        (findOwnerAccount [⟨7, some 10, "owner", "Anna"⟩] c.1).isSome)).length := by
  have h := period_mutators_spec closedStore 1 200 80 10 20 1 5 0 none
    (by simp [closedStore])
  have hbudget := h.2.2.2.2.1
    ⟨1, "P1", "closed", 1, some 100, some 50, none, none, none, none, none⟩
    rfl
  have helec := h.2.2.2.2.2.1
    ⟨1, "P1", "closed", 1, some 100, some 50, none, none, none, none, none⟩
    rfl
  have hbills := h.2.2.2.2.2.2
    ⟨1, "P1", "closed", 1, some 100, some 50, none, none, none, none, none⟩
    rfl rfl [⟨7, some 10, "owner", "Anna"⟩] [(10, 25)] "main" 100
  exact ⟨hbudget.1, hbudget.2, helec.1, hbills.1⟩

end SOSenki
